import Mathlib

/-!
Shallow embedding of the planning-poker real-time session engine:
the data model of src/pp/model.py, the `GameSession` operations of
src/pp/session.py, and the per-message handling loop of the websocket
endpoint in src/pp/server.py.

Modelling conventions:
* UUIDs are modelled as `Nat`; websocket handles are opaque `Nat` values.
* Vote values are `float` in the source but are only ever stored, cleared
  and tested for presence — never computed with — so they are modelled
  as `Int`.
* The python `dict[uuid.UUID, PlayerData]` roster is modelled as an
  association list with the exact operations the source performs on it
  (first-match lookup, membership-guarded insertion by append, per-key
  update, deletion).
* Timestamps (`datetime`) are irrelevant to every property below except
  for presence; the `created` field of `GameSession` is dropped because
  no source operation or claim reads it.
-/

namespace PlanningPoker

/-- Player (src/pp/model.py `Player`): a unique id and a username. -/
structure Player where
  id : Nat
  username : String
deriving DecidableEq, Repr

/-- RoundState (src/pp/model.py `RoundState`): INIT, VOTING, REVEALED. -/
inductive RoundState where
  | INIT
  | VOTING
  | REVEALED
deriving DecidableEq, Repr

/-- PlayerState (src/pp/model.py `PlayerState`): the per-player view sent
to clients. -/
structure PlayerState where
  player : Player
  is_connected : Bool
  is_admin : Bool
  is_observing : Bool
  has_voted : Bool
deriving DecidableEq, Repr

/-- Game (src/pp/model.py `Game`): session metadata. The nested
`game_settings` carry round-timer advisory values read by no session
operation; they are folded into this record as an optional pair
(maximum, warning) to keep the snapshot faithful. -/
structure Game where
  code : String
  name : String
  deck_id : Nat
  round_timer : Option (Nat × Nat)
deriving DecidableEq, Repr

/-- GameState (src/pp/model.py `GameState`): the full snapshot. In the
source, `ticket_url`, `round_state` and `round_start` are pydantic
fields with defaults `None`, `RoundState.INIT`, `None`. -/
structure GameState where
  game : Game
  player_states : List (String × PlayerState)
  ticket_url : Option String
  round_state : RoundState
  round_start : Option Nat
deriving DecidableEq, Repr

/-- PlayerData (src/pp/session.py `PlayerData`): roster entry with
defaults `websocket = None`, `vote = None`, `is_observing = False`. -/
structure PlayerData where
  player : Player
  websocket : Option Nat
  vote : Option Int
  is_observing : Bool
deriving DecidableEq, Repr

/-- Roster entry as constructed by `add_player`: `PlayerData(player=player)`
with all other fields at their dataclass defaults. -/
def PlayerData.mkDefault (p : Player) : PlayerData :=
  { player := p, websocket := none, vote := none, is_observing := false }

/-- Roster type: the python `dict[uuid.UUID, PlayerData]`. -/
abbrev Roster : Type := List (Nat × PlayerData)

/-- First-match lookup, the semantics of `self.players[key]` /
`key in self.players` on a python dict (keys are unique there, so
first-match agrees with the dict). -/
def dictGet (m : Roster) (k : Nat) : Option PlayerData :=
  match m with
  | [] => none
  | kv :: rest => if kv.1 = k then some kv.2 else dictGet rest k

/-- Membership test `key in self.players`. -/
def dictContains (m : Roster) (k : Nat) : Bool :=
  (dictGet m k).isSome

/-- In-place update of the entry stored under `k`
(`self.players[key].field = ...`). -/
def dictModify (m : Roster) (k : Nat) (f : PlayerData → PlayerData) : Roster :=
  m.map fun kv => if kv.1 = k then (kv.1, f kv.2) else kv

/-- Deletion `del self.players[key]`. -/
def dictErase (m : Roster) (k : Nat) : Roster :=
  m.filter fun kv => kv.1 ≠ k

/-- GameSession (src/pp/session.py `GameSession.__init__`): game metadata,
an initially empty roster, and `admin_id = None`. -/
structure GameSession where
  game : Game
  players : Roster
  admin_id : Option Nat
deriving DecidableEq, Repr

/-- Session construction (`GameSession(game=game)`). -/
def GameSession.make (g : Game) : GameSession :=
  { game := g, players := [], admin_id := none }

namespace GameSession

/-- `GameSession.add_player` (src/pp/session.py lines 66-79): if
`admin_id is None` the joining player becomes the admin; then the player
is inserted only when not already present. -/
def add_player (s : GameSession) (p : Player) : GameSession :=
  let s1 := if s.admin_id.isNone then { s with admin_id := some p.id } else s
  if dictContains s1.players p.id then s1
  else { s1 with players := s1.players ++ [(p.id, PlayerData.mkDefault p)] }

/-- `GameSession.remove_player` (lines 81-90): delete the roster entry if
present; `admin_id` is not touched (only a warning is logged when the
admin leaves). -/
def remove_player (s : GameSession) (p : Player) : GameSession :=
  if dictContains s.players p.id then
    { s with players := dictErase s.players p.id }
  else s

/-- `GameSession.set_websocket` (lines 92-100): attach a websocket to a
roster member; no-op for a non-member. -/
def set_websocket (s : GameSession) (p : Player) (ws : Nat) : GameSession :=
  if dictContains s.players p.id then
    { s with players :=
        dictModify s.players p.id (fun pd => { pd with websocket := some ws }) }
  else s

/-- `GameSession.clear_websocket` (lines 102-113): detach the websocket
and reset `is_observing` and `vote` to defaults; no-op for a non-member. -/
def clear_websocket (s : GameSession) (p : Player) : GameSession :=
  if dictContains s.players p.id then
    let cleared : PlayerData → PlayerData :=
      fun pd => { pd with websocket := none, is_observing := false, vote := none }
    { s with players := dictModify s.players p.id cleared }
  else s

/-- `GameSession.is_admin` (lines 115-121): `self.admin_id == player.id`
(false whenever `admin_id` is `None`). -/
def is_admin (s : GameSession) (p : Player) : Bool :=
  decide (s.admin_id = some p.id)

/-- `GameSession.update_vote` (lines 123-131): record the vote of a
roster member; no-op for a non-member. -/
def update_vote (s : GameSession) (p : Player) (v : Int) : GameSession :=
  if dictContains s.players p.id then
    { s with players :=
        dictModify s.players p.id (fun pd => { pd with vote := some v }) }
  else s

/-- `GameSession.reset_votes` (lines 133-137): set every roster entry's
vote to `None`. -/
def reset_votes (s : GameSession) : GameSession :=
  { s with players := s.players.map (fun kv => (kv.1, { kv.2 with vote := none })) }

/-- `GameSession.toggle_observing` (lines 139-149): flip the observing
flag of a roster member; no-op for a non-member. -/
def toggle_observing (s : GameSession) (p : Player) : GameSession :=
  if dictContains s.players p.id then
    { s with players :=
        dictModify s.players p.id (fun pd => { pd with is_observing := !pd.is_observing }) }
  else s

/-- `GameSession.votes` (lines 151-158): the vote ledger,
`{str(k): v.vote for k, v in self.players.items()}`. -/
def votes (s : GameSession) : List (String × Option Int) :=
  s.players.map fun kv => (toString kv.1, kv.2.vote)

/-- `GameSession.empty` (lines 160-167):
`not self.players or all(p.websocket is None for p in values)`. -/
def empty (s : GameSession) : Bool :=
  s.players.isEmpty || s.players.all fun kv => kv.2.websocket.isNone

/-- `GameSession.state` (lines 169-186): the snapshot. The source builds
`GameState(game=self.game, player_states=player_states)`, leaving
`ticket_url`, `round_state` and `round_start` at their pydantic defaults
`None` / `INIT` / `None` — `GameSession` itself keeps no round state. -/
def state (s : GameSession) : GameState :=
  { game := s.game
    player_states := s.players.map fun kv =>
      (toString kv.2.player.id,
        { player := kv.2.player
          is_connected := kv.2.websocket.isSome
          is_admin := s.is_admin kv.2.player
          is_observing := kv.2.is_observing
          has_voted := kv.2.vote.isSome })
    ticket_url := none
    round_state := RoundState.INIT
    round_start := none }

/-- `GameSession.broadcast` (lines 36-64), with the transport abstracted
as a per-websocket outcome `send : Nat → Except String Unit`. The source
filters the roster to entries whose websocket is not `None`, builds one
send task per such entry, awaits them with `return_exceptions=True`
(failures become values that are only logged, never re-raised), and
returns `len(tasks)`. The `Except` on the result mirrors that the
python coroutine could in principle raise to its caller; the returned
list holds each attempted websocket with its individual outcome. -/
def broadcast (s : GameSession) (send : Nat → Except String Unit) :
    Except String (Nat × List (Nat × Except String Unit)) :=
  let conns := s.players.filterMap fun kv => kv.2.websocket
  let results := conns.map fun c => (c, send c)
  Except.ok (conns.length, results)

end GameSession

/-- Inbound client messages (src/pp/model.py `MessageType`, client side),
with the payloads the server actually parses: `SUBMITVOTE` carries a
number, `RESET` carries an optional ticket URL. -/
inductive ClientMsg where
  | SUBMITVOTE (v : Int)
  | OBSERVE
  | SYNC
  | RESET (ticket : Option String)
  | REVEAL
deriving DecidableEq, Repr

/-- Outbound server messages produced inside the message loop of
`websocket_endpoint` (src/pp/server.py lines 139-189). -/
inductive ServerMsg where
  | STATE (gs : GameState)
  | PLAYERVOTED (p : Player)
  | OBSERVING (p : Player)
  | RESETGAME (ticket : Option String)
  | REVEALGAME (vs : List (String × Option Int))
deriving DecidableEq, Repr

/-- Result of handling one inbound message: the updated session, the
messages written on the requester's own socket (`websocket.send_text`),
and the messages broadcast to all connected players. -/
structure HandleResult where
  session : GameSession
  toRequester : List ServerMsg
  toAll : List ServerMsg
deriving DecidableEq, Repr

/-- One iteration of the message loop of `websocket_endpoint`
(src/pp/server.py lines 139-189): SUBMITVOTE records the vote and
broadcasts PLAYERVOTED; OBSERVE toggles observing and broadcasts
OBSERVING; SYNC sends the snapshot back to the requester only; RESET
(admin only) clears the votes and broadcasts RESETGAME with the
ticket payload; REVEAL (admin only) broadcasts REVEALGAME with the
vote ledger; RESET/REVEAL from a non-admin is logged and ignored. -/
def handle_message (s : GameSession) (p : Player) (m : ClientMsg) : HandleResult :=
  match m with
  | ClientMsg.SUBMITVOTE v =>
      { session := s.update_vote p v
        toRequester := []
        toAll := [ServerMsg.PLAYERVOTED p] }
  | ClientMsg.OBSERVE =>
      { session := s.toggle_observing p
        toRequester := []
        toAll := [ServerMsg.OBSERVING p] }
  | ClientMsg.SYNC =>
      { session := s
        toRequester := [ServerMsg.STATE s.state]
        toAll := [] }
  | ClientMsg.RESET ticket =>
      if s.is_admin p then
        { session := s.reset_votes
          toRequester := []
          toAll := [ServerMsg.RESETGAME ticket] }
      else
        { session := s, toRequester := [], toAll := [] }
  | ClientMsg.REVEAL =>
      if s.is_admin p then
        { session := s
          toRequester := []
          toAll := [ServerMsg.REVEALGAME s.votes] }
      else
        { session := s, toRequester := [], toAll := [] }

/-- Two sessions that agree on everything except the numeric values of
the votes that are present: same game, same admin id, and
pointwise-aligned rosters whose entries agree on key, player, websocket
and observing flag, with votes present in exactly the same positions.
This is the indistinguishability relation of the claim that the
snapshot never exposes vote values. -/
def SameUpToVoteValues (s1 s2 : GameSession) : Prop :=
  s1.game = s2.game ∧ s1.admin_id = s2.admin_id ∧
  List.Forall₂ (fun a b : Nat × PlayerData =>
    a.1 = b.1 ∧ a.2.player = b.2.player ∧ a.2.websocket = b.2.websocket ∧
    a.2.is_observing = b.2.is_observing ∧ a.2.vote.isSome = b.2.vote.isSome)
    s1.players s2.players

/-- Session states reachable from a fresh session by any sequence of
`GameSession` operations and handled messages. -/
inductive Reachable : GameSession → Prop where
  | make (g : Game) : Reachable (GameSession.make g)
  | add (s : GameSession) (p : Player) : Reachable s → Reachable (s.add_player p)
  | remove (s : GameSession) (p : Player) : Reachable s → Reachable (s.remove_player p)
  | bindConn (s : GameSession) (p : Player) (ws : Nat) :
      Reachable s → Reachable (s.set_websocket p ws)
  | unbindConn (s : GameSession) (p : Player) : Reachable s → Reachable (s.clear_websocket p)
  | vote (s : GameSession) (p : Player) (v : Int) :
      Reachable s → Reachable (s.update_vote p v)
  | toggleObs (s : GameSession) (p : Player) : Reachable s → Reachable (s.toggle_observing p)
  | resetVotes (s : GameSession) : Reachable s → Reachable s.reset_votes
  | handle (s : GameSession) (p : Player) (m : ClientMsg) :
      Reachable s → Reachable (handle_message s p m).session

/-- Roster key consistency: every roster entry is stored under its own
player's id. -/
def KeyConsistent (s : GameSession) : Prop :=
  ∀ kv ∈ s.players, kv.2.player.id = kv.1

/-- Concrete game metadata used by the witnesses and counterexamples,
mirroring the fixture of src/test/test_session.py. -/
def gFix : Game := { code := "abcd", name := "A new game", deck_id := 1, round_timer := none }

/-- Concrete first player of the test fixtures. -/
def alice : Player := { id := 1, username := "Alice" }

/-- Concrete second player of the test fixtures. -/
def bob : Player := { id := 2, username := "Bob" }

/-- Concrete player that never joins any session. -/
def frank : Player := { id := 3, username := "Frank" }

/-- Concrete session: alice (admin) and bob joined and connected, alice
voted 3 and bob voted 5 — the situation of the reveal/reset tests in
src/test/test_server.py. -/
def sAB : GameSession :=
  ((((((GameSession.make gFix).add_player alice).add_player
    bob).set_websocket alice 10).set_websocket bob 11).update_vote alice 3).update_vote bob 5

/-- Same as `sAB` except bob voted 7 instead of 5. -/
def sABalt : GameSession :=
  ((((((GameSession.make gFix).add_player alice).add_player
    bob).set_websocket alice 10).set_websocket bob 11).update_vote alice 3).update_vote bob 7

/-- Concrete session with alice and bob joined but neither connected:
`empty` reports true although the roster is non-empty. -/
def sNoWs : GameSession :=
  ((GameSession.make gFix).add_player alice).add_player bob

/-! ## Helper lemmas about the roster dictionary -/

theorem dictGet_append_some {m : Roster} {k : Nat} {pd : PlayerData} (l : Roster)
    (h : dictGet m k = some pd) : dictGet (m ++ l) k = some pd := by
  induction m with
  | nil => simp [dictGet] at h
  | cons kv rest ih =>
      by_cases hk : kv.1 = k
      · simpa [dictGet, hk] using h
      · simp only [dictGet, hk, if_false] at h
        simpa [dictGet, hk] using ih h

theorem dictGet_append_none {m : Roster} {k : Nat} (l : Roster)
    (h : dictGet m k = none) : dictGet (m ++ l) k = dictGet l k := by
  induction m with
  | nil => simp
  | cons kv rest ih =>
      by_cases hk : kv.1 = k
      · simp [dictGet, hk] at h
      · simp only [dictGet, hk, if_false] at h
        simpa [dictGet, hk] using ih h

theorem dictGet_dictModify (m : Roster) (k : Nat) (f : PlayerData → PlayerData)
    (k2 : Nat) :
    dictGet (dictModify m k f) k2 =
      if k2 = k then (dictGet m k2).map f else dictGet m k2 := by
  induction m with
  | nil => simp [dictGet, dictModify]
  | cons kv rest ih =>
      simp only [dictModify, List.map_cons] at ih ⊢
      by_cases h1 : kv.1 = k
      · by_cases h2 : kv.1 = k2
        · have hk : k2 = k := h2 ▸ h1
          simp [dictGet, h1, h2, hk]
        · have hk2 : ¬ k = k2 := fun hc => h2 (h1.trans hc)
          by_cases hk : k2 = k
          · exact absurd hk.symm hk2
          · simp [dictGet, h1, h2, ih, hk, hk2]
      · by_cases h2 : kv.1 = k2
        · by_cases hk : k2 = k
          · exact absurd (hk ▸ h2) h1
          · simp [dictGet, h1, h2, hk]
        · simp [dictGet, h1, h2, ih]

theorem dictGet_dictErase (m : Roster) (k k2 : Nat) :
    dictGet (dictErase m k) k2 = if k2 = k then none else dictGet m k2 := by
  induction m with
  | nil => simp [dictGet, dictErase]
  | cons kv rest ih =>
      simp only [dictErase, ne_eq, decide_not, List.filter_cons] at ih ⊢
      by_cases h1 : kv.1 = k
      · by_cases h2 : kv.1 = k2
        · have hk : k2 = k := h2 ▸ h1
          simp only [hk] at ih ⊢
          simp [dictGet, h1, h2, ih]
        · have hk2 : ¬ k = k2 := fun hc => h2 (h1.trans hc)
          by_cases hk : k2 = k
          · exact absurd hk.symm hk2
          · simp [dictGet, h1, h2, ih, hk, hk2]
      · by_cases h2 : kv.1 = k2
        · by_cases hk : k2 = k
          · exact absurd (hk ▸ h2) h1
          · simp [dictGet, h1, h2, hk]
        · simp [dictGet, h1, h2, ih]

theorem dictGet_mem {m : Roster} {k : Nat} {pd : PlayerData}
    (h : dictGet m k = some pd) : (k, pd) ∈ m := by
  induction m with
  | nil => simp [dictGet] at h
  | cons kv rest ih =>
      by_cases hk : kv.1 = k
      · simp only [dictGet, hk, if_true, Option.some.injEq] at h
        cases kv with
        | mk k1 v1 =>
            simp only at hk h
            subst hk
            subst h
            exact List.mem_cons_self _ _
      · simp only [dictGet, hk, if_false] at h
        exact List.mem_cons_of_mem _ (ih h)

/-! ## Admin-id preservation helpers -/

theorem admin_id_remove_player (s : GameSession) (p : Player) :
    (s.remove_player p).admin_id = s.admin_id := by
  unfold GameSession.remove_player
  split <;> rfl

theorem admin_id_set_websocket (s : GameSession) (p : Player) (ws : Nat) :
    (s.set_websocket p ws).admin_id = s.admin_id := by
  unfold GameSession.set_websocket
  split <;> rfl

theorem admin_id_clear_websocket (s : GameSession) (p : Player) :
    (s.clear_websocket p).admin_id = s.admin_id := by
  unfold GameSession.clear_websocket
  split <;> rfl

theorem admin_id_update_vote (s : GameSession) (p : Player) (v : Int) :
    (s.update_vote p v).admin_id = s.admin_id := by
  unfold GameSession.update_vote
  split <;> rfl

theorem admin_id_toggle_observing (s : GameSession) (p : Player) :
    (s.toggle_observing p).admin_id = s.admin_id := by
  unfold GameSession.toggle_observing
  split <;> rfl

theorem admin_id_reset_votes (s : GameSession) :
    s.reset_votes.admin_id = s.admin_id := rfl

theorem admin_id_add_player {s : GameSession} {a : Nat} (p : Player)
    (h : s.admin_id = some a) : (s.add_player p).admin_id = some a := by
  unfold GameSession.add_player
  simp only [h, Option.isNone_some, Bool.false_eq_true, if_false]
  split <;> simp [h]

theorem admin_id_handle_message (s : GameSession) (p : Player) (m : ClientMsg) :
    (handle_message s p m).session.admin_id = s.admin_id := by
  cases m <;>
    simp [handle_message, admin_id_update_vote, admin_id_toggle_observing,
      admin_id_reset_votes] <;>
    split <;> simp [admin_id_reset_votes]

theorem length_filterMap_websocket (m : Roster) :
    (m.filterMap (fun kv => kv.2.websocket)).length =
    (m.filter (fun kv => kv.2.websocket.isSome)).length := by
  induction m with
  | nil => rfl
  | cons kv rest ih =>
      cases h : kv.2.websocket with
      | none => simp [List.filterMap_cons, List.filter_cons, h, ih]
      | some c => simp [List.filterMap_cons, List.filter_cons, h, ih]

/-! ## Claim theorems -/

/-- C7: `broadcast` never propagates a delivery failure to its caller
(it always returns `Except.ok`), its count is the number of roster
entries with a live websocket at call time (attempted recipients, not
successes), and every live websocket receives its own independent send
attempt, whatever the outcomes on the other recipients are. -/
theorem broadcast_count_and_isolation (s : GameSession)
    (send : Nat → Except String Unit) :
    GameSession.broadcast s send =
      Except.ok ((s.players.filter (fun kv => kv.2.websocket.isSome)).length,
        (s.players.filterMap (fun kv => kv.2.websocket)).map (fun c => (c, send c))) ∧
    ∀ c, c ∈ s.players.filterMap (fun kv => kv.2.websocket) →
      (c, send c) ∈ (s.players.filterMap (fun kv => kv.2.websocket)).map
        (fun c2 => (c2, send c2)) := by
  constructor
  · simp [GameSession.broadcast, length_filterMap_websocket]
  · intro c hc
    exact List.mem_map_of_mem _ hc

/-- Witness for C7: in the two-connection session `sAB`, with a send
that fails on alice's websocket 10 and succeeds on bob's websocket 11,
the broadcast still reports two attempted recipients and attempts
bob's delivery. -/
theorem broadcast_count_and_isolation_w :
    GameSession.broadcast sAB
        (fun c => if c = 10 then Except.error "boom" else Except.ok ()) =
      Except.ok ((sAB.players.filter (fun kv => kv.2.websocket.isSome)).length,
        (sAB.players.filterMap (fun kv => kv.2.websocket)).map
          (fun c => (c, if c = 10 then Except.error "boom" else Except.ok ()))) ∧
    (11, Except.ok ()) ∈ (sAB.players.filterMap (fun kv => kv.2.websocket)).map
      (fun c2 => (c2, if c2 = 10 then Except.error "boom" else Except.ok ())) := by
  constructor
  · exact (broadcast_count_and_isolation sAB
      (fun c => if c = 10 then Except.error "boom" else Except.ok ())).1
  · exact (broadcast_count_and_isolation sAB
      (fun c => if c = 10 then Except.error "boom" else Except.ok ())).2 11 (by decide)

/-- C8: each of `update_vote`, `toggle_observing`, `set_websocket` and
`clear_websocket`, applied with a player identity that is not in the
roster, leaves the session completely unchanged (and, being total
functions, never raises). -/
theorem nonmember_mutations_noop (s : GameSession) (p : Player) (ws : Nat)
    (v : Int) (h : dictContains s.players p.id = false) :
    s.update_vote p v = s ∧ s.toggle_observing p = s ∧
    s.set_websocket p ws = s ∧ s.clear_websocket p = s := by
  refine ⟨?_, ?_, ?_, ?_⟩ <;>
    simp [GameSession.update_vote, GameSession.toggle_observing,
      GameSession.set_websocket, GameSession.clear_websocket, h]

/-- Witness for C8: frank never joined `sAB`, and all four mutations
with frank leave `sAB` unchanged. -/
theorem nonmember_mutations_noop_w :
    dictContains sAB.players frank.id = false ∧
    (sAB.update_vote frank 1 = sAB ∧ sAB.toggle_observing frank = sAB ∧
     sAB.set_websocket frank 12 = sAB ∧ sAB.clear_websocket frank = sAB) :=
  ⟨by decide, nonmember_mutations_noop sAB frank 12 1 (by decide)⟩

/-- C4: once `admin_id` holds a value, every session operation —
adding or removing any player (including the admin), binding or
unbinding a websocket, updating a vote, toggling observing, resetting
the votes, and handling any client message (including RESET and
REVEAL) — leaves `admin_id` exactly as it was. -/
theorem admin_id_immutable (s : GameSession) (a : Nat)
    (ha : s.admin_id = some a) (p : Player) (ws : Nat) (v : Int)
    (m : ClientMsg) :
    (s.add_player p).admin_id = some a ∧
    (s.remove_player p).admin_id = some a ∧
    (s.set_websocket p ws).admin_id = some a ∧
    (s.clear_websocket p).admin_id = some a ∧
    (s.update_vote p v).admin_id = some a ∧
    (s.toggle_observing p).admin_id = some a ∧
    s.reset_votes.admin_id = some a ∧
    (handle_message s p m).session.admin_id = some a := by
  refine ⟨admin_id_add_player p ha, ?_, ?_, ?_, ?_, ?_, ?_, ?_⟩
  · rw [admin_id_remove_player]; exact ha
  · rw [admin_id_set_websocket]; exact ha
  · rw [admin_id_clear_websocket]; exact ha
  · rw [admin_id_update_vote]; exact ha
  · rw [admin_id_toggle_observing]; exact ha
  · rw [admin_id_reset_votes]; exact ha
  · rw [admin_id_handle_message]; exact ha

/-- Witness for C4: in `sAB` the admin is alice (id 1); removing alice,
unbinding her, and an admin RESET all keep `admin_id = some 1`. -/
theorem admin_id_immutable_w :
    sAB.admin_id = some 1 ∧
    ((sAB.add_player frank).admin_id = some 1 ∧
     (sAB.remove_player alice).admin_id = some 1 ∧
     (sAB.set_websocket alice 12).admin_id = some 1 ∧
     (sAB.clear_websocket alice).admin_id = some 1 ∧
     (sAB.update_vote alice 4).admin_id = some 1 ∧
     (sAB.toggle_observing alice).admin_id = some 1 ∧
     sAB.reset_votes.admin_id = some 1 ∧
     (handle_message sAB alice (ClientMsg.RESET none)).session.admin_id = some 1) := by
  constructor
  · decide
  · have h := admin_id_immutable sAB 1 (by decide) alice 12 4 (ClientMsg.RESET none)
    exact ⟨(admin_id_immutable sAB 1 (by decide) frank 12 4 (ClientMsg.RESET none)).1,
      h.2.1, h.2.2.1, h.2.2.2.1, h.2.2.2.2.1, h.2.2.2.2.2.1,
      h.2.2.2.2.2.2.1, h.2.2.2.2.2.2.2⟩

/-- C1 (code evaluated at the failing input): in `sAB` (alice admin,
both players voted), an admin RESET carrying a ticket URL clears every
vote and broadcasts RESETGAME with that URL, but the session keeps no
round state whatsoever: its snapshot afterwards still reports
`round_state = INIT` (not VOTING), `round_start = none` (not a
timestamp) and `ticket_url = none` (the supplied URL is not stored).
This contradicts the claim and the repository's own tests
(src/test/test_session.py `test_reset_round`,
src/test/test_server.py `test_websocket_reset`). -/
theorem resetRound_keeps_no_round_state :
    (handle_message sAB alice (ClientMsg.RESET (some "http://x/ticket"))).session.votes
        = [("1", none), ("2", none)] ∧
    (handle_message sAB alice (ClientMsg.RESET (some "http://x/ticket"))).toAll
        = [ServerMsg.RESETGAME (some "http://x/ticket")] ∧
    (handle_message sAB alice (ClientMsg.RESET (some "http://x/ticket"))).session.state.round_state
        = RoundState.INIT ∧
    (handle_message sAB alice (ClientMsg.RESET (some "http://x/ticket"))).session.state.round_start
        = none ∧
    (handle_message sAB alice (ClientMsg.RESET (some "http://x/ticket"))).session.state.ticket_url
        = none := by
  refine ⟨?_, ?_, ?_, ?_, ?_⟩ <;> decide

/-- C2 (code evaluated at the failing input): an admin REVEAL in `sAB`
leaves the session — and hence the vote ledger — completely unchanged
and broadcasts the ledger, but it sets no round state: the snapshot
after the reveal still reports `round_state = INIT`, not REVEALED.
This contradicts the claim and the repository's own test
(src/test/test_server.py `test_websocket_reveal`, which asserts
`gs.round_state == RoundState.REVEALED`). -/
theorem revealRound_keeps_no_round_state :
    (handle_message sAB alice ClientMsg.REVEAL).session = sAB ∧
    (handle_message sAB alice ClientMsg.REVEAL).session.votes = sAB.votes ∧
    (handle_message sAB alice ClientMsg.REVEAL).toAll
        = [ServerMsg.REVEALGAME [("1", some 3), ("2", some 5)]] ∧
    (handle_message sAB alice ClientMsg.REVEAL).session.state.round_state
        = RoundState.INIT := by
  refine ⟨?_, ?_, ?_, ?_⟩ <;> decide

/-- C3 (code evaluated at the failing input): a SYNC request is answered
with exactly one message on the requester's socket — the STATE
snapshot — and nothing else, for every session state; in particular in
`sAB` with both votes cast (the situation of the repository's test
src/test/test_server.py `test_websocket_sync_revealed_state`) no
vote-data message follows the STATE message. The session also has no
round state that could ever equal REVEALED. -/
theorem sync_sends_state_only :
    (∀ (s : GameSession) (p : Player),
      (handle_message s p ClientMsg.SYNC).session = s ∧
      (handle_message s p ClientMsg.SYNC).toRequester = [ServerMsg.STATE s.state] ∧
      (handle_message s p ClientMsg.SYNC).toAll = []) ∧
    (handle_message sAB alice ClientMsg.SYNC).toRequester
        = [ServerMsg.STATE sAB.state] ∧
    (handle_message sAB alice ClientMsg.SYNC).toRequester.length = 1 := by
  refine ⟨fun s p => ⟨rfl, rfl, rfl⟩, rfl, rfl⟩

/-- `add_player` restated: the admin assignment of the joining player
happens exactly when `admin_id` was unset. -/
theorem admin_id_add_player_eq (s : GameSession) (p : Player) :
    (s.add_player p).admin_id =
      if s.admin_id.isNone then some p.id else s.admin_id := by
  unfold GameSession.add_player
  by_cases hc : s.admin_id.isNone <;> simp [hc] <;> split <;> rfl

/-- `add_player` restated: the roster gains the default entry exactly
when the id was absent. -/
theorem players_add_player (s : GameSession) (p : Player) :
    (s.add_player p).players =
      if dictContains s.players p.id then s.players
      else s.players ++ [(p.id, PlayerData.mkDefault p)] := by
  unfold GameSession.add_player
  by_cases hc : s.admin_id.isNone <;> simp [hc] <;> split <;> rfl

theorem dictContains_false_iff {m : Roster} {k : Nat} :
    dictContains m k = false ↔ dictGet m k = none := by
  cases h : dictGet m k <;> simp [dictContains, h]

theorem dictContains_true_iff {m : Roster} {k : Nat} :
    dictContains m k = true ↔ ∃ pd, dictGet m k = some pd := by
  cases h : dictGet m k <;> simp [dictContains, h]

/-- `add_player` is the identity on a session that already has an admin
and already contains the player. -/
theorem add_player_of_present {s : GameSession} {p : Player}
    (h1 : s.admin_id.isNone = false)
    (h2 : dictContains s.players p.id = true) : s.add_player p = s := by
  unfold GameSession.add_player
  simp [h1, h2]

/-- C5 counterexample: after alice (the first player, hence admin)
joins and then leaves, the roster is empty again, yet adding bob to
this empty roster does not make bob the admin — `admin_id` is still
alice's id, because the source only assigns the admin when
`admin_id is None`, not when the roster is empty. -/
theorem addPlayer_empty_roster_admin_cx :
    ((((GameSession.make gFix).add_player alice).remove_player alice).players
        = ([] : Roster)) ∧
    (((((GameSession.make gFix).add_player alice).remove_player alice).add_player
        bob).admin_id ≠ some bob.id) := by
  refine ⟨?_, ?_⟩ <;> decide

/-- C5 amended: `add_player` is idempotent — adding the same player
twice equals adding once, and re-adding an already-present id leaves
the whole roster (hence the entry's connection, vote and observing
fields) unchanged — and the added player becomes `admin_id` exactly
when `admin_id` is still unset, which holds for the first player ever
added but not necessarily whenever the roster is empty. -/
theorem addPlayer_idempotent_first_admin :
    (∀ (s : GameSession) (p : Player),
      (s.add_player p).add_player p = s.add_player p) ∧
    (∀ (s : GameSession) (p : Player), dictContains s.players p.id = true →
      (s.add_player p).players = s.players) ∧
    (∀ (s : GameSession) (p : Player), s.admin_id = none →
      (s.add_player p).admin_id = some p.id) := by
  refine ⟨?_, ?_, ?_⟩
  · intro s p
    have hadmin : (s.add_player p).admin_id.isNone = false := by
      rw [admin_id_add_player_eq]
      by_cases hc : s.admin_id.isNone <;> simp [hc]
    have hcont : dictContains (s.add_player p).players p.id = true := by
      rw [players_add_player]
      by_cases hd : dictContains s.players p.id
      · simp [hd]
      · rw [if_neg hd, dictContains_true_iff]
        refine ⟨PlayerData.mkDefault p, ?_⟩
        rw [dictGet_append_none _ (dictContains_false_iff.mp (by simpa using hd))]
        simp [dictGet]
    exact add_player_of_present hadmin hcont
  · intro s p h
    rw [players_add_player, if_pos h]
  · intro s p h
    rw [admin_id_add_player_eq, if_pos (by simp [h])]

/-- Witness for C5 (amended): adding bob twice to the one-player
session equals adding him once; re-adding alice leaves the roster
unchanged; and on a fresh session (admin unset) alice becomes admin. -/
theorem addPlayer_idempotent_first_admin_w :
    ((((GameSession.make gFix).add_player alice).add_player bob).add_player bob
        = ((GameSession.make gFix).add_player alice).add_player bob) ∧
    (dictContains ((GameSession.make gFix).add_player alice).players alice.id = true ∧
      (((GameSession.make gFix).add_player alice).add_player alice).players
        = ((GameSession.make gFix).add_player alice).players) ∧
    ((GameSession.make gFix).admin_id = none ∧
      ((GameSession.make gFix).add_player alice).admin_id = some alice.id) :=
  ⟨addPlayer_idempotent_first_admin.1 ((GameSession.make gFix).add_player alice) bob,
   ⟨by decide, addPlayer_idempotent_first_admin.2.1
      ((GameSession.make gFix).add_player alice) alice (by decide)⟩,
   ⟨rfl, addPlayer_idempotent_first_admin.2.2 (GameSession.make gFix) alice rfl⟩⟩

/-- C6: `empty` is true exactly when the roster has no entry or no
entry has a live websocket; and from any empty-reporting state, binding
one websocket to a roster member makes `empty` false, while unbinding
that member again restores `empty = true`. -/
theorem empty_iff_bind_unbind :
    (∀ s : GameSession, s.empty = true ↔
      (s.players = [] ∨ ∀ kv ∈ s.players, kv.2.websocket = none)) ∧
    (∀ (s : GameSession) (p : Player) (ws : Nat),
      dictContains s.players p.id = true → s.empty = true →
      (s.set_websocket p ws).empty = false ∧
      ((s.set_websocket p ws).clear_websocket p).empty = true) := by
  have hiff : ∀ s : GameSession, s.empty = true ↔
      (s.players = [] ∨ ∀ kv ∈ s.players, kv.2.websocket = none) := by
    intro s
    simp [GameSession.empty, Bool.or_eq_true, List.isEmpty_iff,
      List.all_eq_true, Option.isNone_iff_eq_none]
  refine ⟨hiff, ?_⟩
  intro s p ws hmem hempty
  obtain ⟨pd, hpd⟩ := dictContains_true_iff.mp hmem
  have hall : ∀ kv ∈ s.players, kv.2.websocket = none := by
    rcases (hiff s).mp hempty with hnil | hall
    · rw [hnil] at hpd
      simp [dictGet] at hpd
    · exact hall
  have hset : s.set_websocket p ws =
      { s with players :=
          dictModify s.players p.id (fun q => { q with websocket := some ws }) } := by
    unfold GameSession.set_websocket
    rw [if_pos hmem]
  constructor
  · rw [hset]
    have hget : dictGet
        (dictModify s.players p.id (fun q => { q with websocket := some ws })) p.id
        = some { pd with websocket := some ws } := by
      rw [dictGet_dictModify, if_pos rfl, hpd]
      rfl
    have hmem2 : (p.id, { pd with websocket := some ws }) ∈
        dictModify s.players p.id (fun q => { q with websocket := some ws }) :=
      dictGet_mem hget
    simp only [GameSession.empty]
    rw [Bool.or_eq_false_iff]
    constructor
    · rw [List.isEmpty_eq_false_iff_exists_mem]
      exact ⟨_, hmem2⟩
    · rw [Bool.eq_false_iff]
      intro hcon
      rw [List.all_eq_true] at hcon
      have := hcon _ hmem2
      simp at this
  · rw [hset]
    unfold GameSession.clear_websocket
    split
    · rename_i hc
      rw [(hiff _).mpr]
      right
      intro kv hkv
      simp only [dictModify, List.mem_map] at hkv
      obtain ⟨kv1, hkv1, hkv1eq⟩ := hkv
      obtain ⟨kv0, hkv0, hkv0eq⟩ := hkv1
      subst hkv1eq
      subst hkv0eq
      by_cases h0 : kv0.1 = p.id
      · simp [h0]
      · simp only [h0, if_false]
        exact hall kv0 hkv0
    · rename_i hc
      exfalso
      apply hc
      simp only [GameSession.mk.injEq]
      rw [dictContains_true_iff]
      exact ⟨{ pd with websocket := some ws }, by
        rw [dictGet_dictModify, if_pos rfl, hpd]; rfl⟩

/-- Witness for C6: alice and bob joined but unconnected (`sNoWs`):
`empty` is true; binding websocket 10 to alice makes it false; clearing
alice's websocket makes it true again. -/
theorem empty_iff_bind_unbind_w :
    (sNoWs.empty = true ↔
      (sNoWs.players = [] ∨ ∀ kv ∈ sNoWs.players, kv.2.websocket = none)) ∧
    dictContains sNoWs.players alice.id = true ∧ sNoWs.empty = true ∧
    ((sNoWs.set_websocket alice 10).empty = false ∧
      ((sNoWs.set_websocket alice 10).clear_websocket alice).empty = true) :=
  ⟨empty_iff_bind_unbind.1 sNoWs, by decide, by decide,
   empty_iff_bind_unbind.2 sNoWs alice 10 (by decide) (by decide)⟩

/-- C9: the snapshot exposes only the presence of each vote, never its
value — any two sessions that agree on everything except the numeric
values of their present votes produce identical `GameState` snapshots
(per player, `has_voted` is exactly `vote is present`). -/
theorem state_hides_vote_values (s1 s2 : GameSession)
    (h : SameUpToVoteValues s1 s2) : s1.state = s2.state := by
  obtain ⟨hg, ha, hf⟩ := h
  obtain ⟨g1, l1, a1⟩ := s1
  obtain ⟨g2, l2, a2⟩ := s2
  simp only at hg ha hf
  subst hg
  subst ha
  simp only [GameSession.state, GameSession.is_admin, GameState.mk.injEq,
    and_true, true_and]
  induction hf with
  | nil => rfl
  | cons hab htail ih =>
      obtain ⟨hk, hp, hw, ho, hv⟩ := hab
      simp only [List.map_cons, List.cons.injEq]
      exact ⟨by simp [hp, hw, ho, hv], ih⟩

/-- Witness for C9: `sAB` (bob voted 5) and `sABalt` (bob voted 7)
differ only in bob's vote value, and their snapshots are equal. -/
theorem state_hides_vote_values_w :
    SameUpToVoteValues sAB sABalt ∧ sAB.state = sABalt.state := by
  have hr : SameUpToVoteValues sAB sABalt := by
    refine ⟨rfl, rfl, ?_⟩
    exact List.Forall₂.cons (by exact ⟨rfl, rfl, rfl, rfl, rfl⟩)
      (List.Forall₂.cons (by exact ⟨rfl, rfl, rfl, rfl, rfl⟩) List.Forall₂.nil)
  exact ⟨hr, state_hides_vote_values sAB sABalt hr⟩

theorem keyConsistent_dictModify {m : Roster} {k : Nat}
    {f : PlayerData → PlayerData} (hf : ∀ q, (f q).player = q.player)
    (h : ∀ kv ∈ m, kv.2.player.id = kv.1) :
    ∀ kv ∈ dictModify m k f, kv.2.player.id = kv.1 := by
  intro kv hkv
  simp only [dictModify, List.mem_map] at hkv
  obtain ⟨kv0, hkv0, heq⟩ := hkv
  subst heq
  by_cases h0 : kv0.1 = k
  · rw [if_pos h0]
    show (f kv0.2).player.id = kv0.1
    rw [hf]
    exact h kv0 hkv0
  · rw [if_neg h0]
    exact h kv0 hkv0

theorem keyConsistent_add_player {s : GameSession} {p : Player}
    (h : KeyConsistent s) : KeyConsistent (s.add_player p) := by
  intro kv hkv
  rw [players_add_player] at hkv
  by_cases hc : dictContains s.players p.id
  · rw [if_pos hc] at hkv
    exact h kv hkv
  · rw [if_neg hc] at hkv
    rcases List.mem_append.mp hkv with h1 | h1
    · exact h kv h1
    · simp only [List.mem_singleton] at h1
      subst h1
      rfl

theorem keyConsistent_remove_player {s : GameSession} {p : Player}
    (h : KeyConsistent s) : KeyConsistent (s.remove_player p) := by
  intro kv hkv
  unfold GameSession.remove_player at hkv
  split at hkv
  · exact h kv (List.mem_of_mem_filter hkv)
  · exact h kv hkv

theorem keyConsistent_set_websocket {s : GameSession} {p : Player} {ws : Nat}
    (h : KeyConsistent s) : KeyConsistent (s.set_websocket p ws) := by
  intro kv hkv
  unfold GameSession.set_websocket at hkv
  split at hkv
  · exact keyConsistent_dictModify
      (f := fun pd => { pd with websocket := some ws }) (fun q => rfl) h kv hkv
  · exact h kv hkv

theorem keyConsistent_clear_websocket {s : GameSession} {p : Player}
    (h : KeyConsistent s) : KeyConsistent (s.clear_websocket p) := by
  intro kv hkv
  unfold GameSession.clear_websocket at hkv
  split at hkv
  · exact keyConsistent_dictModify
      (f := fun pd =>
        { pd with websocket := none, is_observing := false, vote := none })
      (fun q => rfl) h kv hkv
  · exact h kv hkv

theorem keyConsistent_update_vote {s : GameSession} {p : Player} {v : Int}
    (h : KeyConsistent s) : KeyConsistent (s.update_vote p v) := by
  intro kv hkv
  unfold GameSession.update_vote at hkv
  split at hkv
  · exact keyConsistent_dictModify
      (f := fun pd => { pd with vote := some v }) (fun q => rfl) h kv hkv
  · exact h kv hkv

theorem keyConsistent_toggle_observing {s : GameSession} {p : Player}
    (h : KeyConsistent s) : KeyConsistent (s.toggle_observing p) := by
  intro kv hkv
  unfold GameSession.toggle_observing at hkv
  split at hkv
  · exact keyConsistent_dictModify
      (f := fun pd => { pd with is_observing := !pd.is_observing })
      (fun q => rfl) h kv hkv
  · exact h kv hkv

theorem keyConsistent_reset_votes {s : GameSession}
    (h : KeyConsistent s) : KeyConsistent s.reset_votes := by
  intro kv hkv
  simp only [GameSession.reset_votes, List.mem_map] at hkv
  obtain ⟨kv0, hkv0, heq⟩ := hkv
  subst heq
  exact h kv0 hkv0

theorem keyConsistent_handle_message {s : GameSession} {p : Player}
    {m : ClientMsg} (h : KeyConsistent s) :
    KeyConsistent (handle_message s p m).session := by
  cases m with
  | SUBMITVOTE v => exact keyConsistent_update_vote h
  | OBSERVE => exact keyConsistent_toggle_observing h
  | SYNC => exact h
  | RESET ticket =>
      simp only [handle_message]
      split
      · exact keyConsistent_reset_votes h
      · exact h
  | REVEAL =>
      simp only [handle_message]
      split
      · exact h
      · exact h

theorem getPlayer_dictModify (m : Roster) (k2 : Nat) {k : Nat}
    {f : PlayerData → PlayerData} (hf : ∀ q, (f q).player = q.player) :
    (dictGet (dictModify m k f) k2).map PlayerData.player
      = (dictGet m k2).map PlayerData.player := by
  rw [dictGet_dictModify]
  by_cases hk : k2 = k
  · rw [if_pos hk]
    cases dictGet m k2 <;> simp [hf]
  · rw [if_neg hk]

theorem getPlayer_set_websocket (s : GameSession) (p : Player) (ws : Nat)
    (k : Nat) :
    (dictGet (s.set_websocket p ws).players k).map PlayerData.player
      = (dictGet s.players k).map PlayerData.player := by
  unfold GameSession.set_websocket
  split
  · exact getPlayer_dictModify s.players k
      (f := fun pd => { pd with websocket := some ws }) (fun q => rfl)
  · rfl

theorem getPlayer_clear_websocket (s : GameSession) (p : Player) (k : Nat) :
    (dictGet (s.clear_websocket p).players k).map PlayerData.player
      = (dictGet s.players k).map PlayerData.player := by
  unfold GameSession.clear_websocket
  split
  · exact getPlayer_dictModify s.players k
      (f := fun pd =>
        { pd with websocket := none, is_observing := false, vote := none })
      (fun q => rfl)
  · rfl

theorem getPlayer_update_vote (s : GameSession) (p : Player) (v : Int)
    (k : Nat) :
    (dictGet (s.update_vote p v).players k).map PlayerData.player
      = (dictGet s.players k).map PlayerData.player := by
  unfold GameSession.update_vote
  split
  · exact getPlayer_dictModify s.players k
      (f := fun pd => { pd with vote := some v }) (fun q => rfl)
  · rfl

theorem getPlayer_toggle_observing (s : GameSession) (p : Player) (k : Nat) :
    (dictGet (s.toggle_observing p).players k).map PlayerData.player
      = (dictGet s.players k).map PlayerData.player := by
  unfold GameSession.toggle_observing
  split
  · exact getPlayer_dictModify s.players k
      (f := fun pd => { pd with is_observing := !pd.is_observing })
      (fun q => rfl)
  · rfl

theorem getPlayer_reset_votes (s : GameSession) (k : Nat) :
    (dictGet s.reset_votes.players k).map PlayerData.player
      = (dictGet s.players k).map PlayerData.player := by
  suffices hm : ∀ m : Roster,
      (dictGet (m.map (fun kv => (kv.1, { kv.2 with vote := none }))) k).map
        PlayerData.player = (dictGet m k).map PlayerData.player from
    hm s.players
  intro m
  induction m with
  | nil => rfl
  | cons kv rest ih => by_cases hk : kv.1 = k <;> simp [dictGet, hk, ih]

theorem getPlayer_add_player {s : GameSession} {p : Player} {k : Nat}
    {pd : PlayerData} (h1 : dictGet s.players k = some pd) :
    dictGet (s.add_player p).players k = some pd := by
  rw [players_add_player]
  split
  · exact h1
  · exact dictGet_append_some _ h1

theorem getPlayer_remove_player {s : GameSession} {p : Player} {k : Nat}
    {pd2 : PlayerData}
    (h2 : dictGet (s.remove_player p).players k = some pd2) :
    dictGet s.players k = some pd2 := by
  unfold GameSession.remove_player at h2
  split at h2
  · rw [show ({ s with players := dictErase s.players p.id } :
        GameSession).players = dictErase s.players p.id from rfl,
      dictGet_dictErase] at h2
    by_cases hk : k = p.id
    · rw [if_pos hk] at h2
      exact absurd h2 (by simp)
    · rwa [if_neg hk] at h2
  · exact h2

theorem getPlayer_handle_message (s : GameSession) (p : Player) (m : ClientMsg)
    (k : Nat) :
    (dictGet (handle_message s p m).session.players k).map PlayerData.player
      = (dictGet s.players k).map PlayerData.player := by
  cases m with
  | SUBMITVOTE v => exact getPlayer_update_vote s p v k
  | OBSERVE => exact getPlayer_toggle_observing s p k
  | SYNC => rfl
  | RESET ticket =>
      simp only [handle_message]
      split
      · exact getPlayer_reset_votes s k
      · rfl
  | REVEAL =>
      simp only [handle_message]
      split
      · rfl
      · rfl

/-- C10: in every reachable session state each roster entry stored
under key `k` has `player.id = k`, and no operation ever changes the
`player` field of an entry that survives the operation. -/
theorem roster_key_consistency :
    (∀ s : GameSession, Reachable s → KeyConsistent s) ∧
    (∀ (s : GameSession) (p : Player) (ws : Nat) (v : Int) (m : ClientMsg)
        (k : Nat) (pd pd2 : PlayerData), dictGet s.players k = some pd →
      ((dictGet (s.add_player p).players k = some pd2 → pd2.player = pd.player) ∧
       (dictGet (s.remove_player p).players k = some pd2 → pd2.player = pd.player) ∧
       (dictGet (s.set_websocket p ws).players k = some pd2 → pd2.player = pd.player) ∧
       (dictGet (s.clear_websocket p).players k = some pd2 → pd2.player = pd.player) ∧
       (dictGet (s.update_vote p v).players k = some pd2 → pd2.player = pd.player) ∧
       (dictGet (s.toggle_observing p).players k = some pd2 → pd2.player = pd.player) ∧
       (dictGet s.reset_votes.players k = some pd2 → pd2.player = pd.player) ∧
       (dictGet (handle_message s p m).session.players k = some pd2 →
         pd2.player = pd.player))) := by
  constructor
  · intro s hr
    induction hr with
    | make g => intro kv hkv; exact absurd hkv (List.not_mem_nil kv)
    | add s p _ ih => exact keyConsistent_add_player ih
    | remove s p _ ih => exact keyConsistent_remove_player ih
    | bindConn s p ws _ ih => exact keyConsistent_set_websocket ih
    | unbindConn s p _ ih => exact keyConsistent_clear_websocket ih
    | vote s p v _ ih => exact keyConsistent_update_vote ih
    | toggleObs s p _ ih => exact keyConsistent_toggle_observing ih
    | resetVotes s _ ih => exact keyConsistent_reset_votes ih
    | handle s p m _ ih => exact keyConsistent_handle_message ih
  · intro s p ws v m k pd pd2 h1
    have heq : ∀ {t : GameSession},
        (dictGet t.players k).map PlayerData.player
          = (dictGet s.players k).map PlayerData.player →
        dictGet t.players k = some pd2 → pd2.player = pd.player := by
      intro t ht h2
      rw [h2, h1] at ht
      exact Option.some.inj ht
    refine ⟨?_, ?_, heq (getPlayer_set_websocket s p ws k),
      heq (getPlayer_clear_websocket s p k),
      heq (getPlayer_update_vote s p v k),
      heq (getPlayer_toggle_observing s p k),
      heq (getPlayer_reset_votes s k),
      heq (getPlayer_handle_message s p m k)⟩
    · intro h2
      have h3 := getPlayer_add_player (p := p) h1
      exact congrArg PlayerData.player (Option.some.inj (h2.symm.trans h3))
    · intro h2
      have h3 := getPlayer_remove_player h2
      exact congrArg PlayerData.player (Option.some.inj (h3.symm.trans h1))

/-- Witness for C10: the one-player session obtained by adding alice to
a fresh session is reachable and stores alice under her own id 1, and a
concrete vote update in `sAB` keeps alice as the player of entry 1. -/
theorem roster_key_consistency_w :
    ((1 : Nat), PlayerData.mkDefault alice).2.player.id = 1 ∧
    (PlayerData.mk alice (some 10) (some 4) false).player
      = (PlayerData.mk alice (some 10) (some 3) false).player := by
  constructor
  · exact roster_key_consistency.1 ((GameSession.make gFix).add_player alice)
      (Reachable.add _ _ (Reachable.make gFix))
      ((1 : Nat), PlayerData.mkDefault alice) (by decide)
  · exact (roster_key_consistency.2 sAB alice 12 4 (ClientMsg.RESET none) 1
      (PlayerData.mk alice (some 10) (some 3) false)
      (PlayerData.mk alice (some 10) (some 4) false)
      (by decide)).2.2.2.2.1 (by decide)

end PlanningPoker
